import Mathlib

/-!
Verification of the Cognify client state store and chat streaming logic.

The development shallowly embeds `src/frontend/app/store/useStore.ts`
(conversation/message/quiz-thread store), the stream-processing part of
`handleSendMessage` in the ChatBox component, and the knowledge-graph
loader transform of `src/frontend/app/knowledge-graph/page.tsx`.

Modelling conventions:
- JavaScript `Date` values are modelled as `Nat` (milliseconds); every
  `new Date()` call site takes the current time as an explicit `now`
  parameter.
- JavaScript objects used as string-keyed dictionaries
  (`messagesByConversation`, `messageThreadMap`, the degree `Map` of the
  knowledge-graph page) are modelled as insertion-ordered association
  lists with unique keys (`JsRecord`), matching JS object semantics:
  setting an existing key updates it in place, setting a new key appends.
- Asynchronous backend calls are modelled by passing the backend outcome
  as an explicit argument (`none` = fetch rejection or non-2xx response,
  which the code turns into a thrown error; `some r` = parsed JSON body).
- JS truthiness on strings (`x || y` falling through on the empty
  string) is modelled explicitly where the code relies on it.
-/

namespace Cognify

/-- Role of a chat message (`'user' | 'assistant'`). -/
inductive Role where
  | user
  | assistant
  deriving DecidableEq, Repr

/-- `Conversation` interface of `useStore.ts`. `isActive?: boolean` is an
optional field, modelled as `Option Bool` (`none` = property absent). -/
structure Conversation where
  id : String
  title : String
  lastMessage : String
  timestamp : Nat
  isActive : Option Bool
  deriving DecidableEq, Repr

/-- `Message` interface of `useStore.ts`; `threadConversationId?` is the
optional back-reference to a quiz thread spawned from this message. -/
structure Message where
  id : String
  content : String
  role : Role
  timestamp : Nat
  conversationId : String
  threadConversationId : Option String
  deriving DecidableEq, Repr

/-- A JavaScript object used as a string-keyed dictionary: an
insertion-ordered association list whose keys are unique by construction
of the operations below. -/
abbrev JsRecord (α : Type) := List (String × α)

/-- Key lookup (`obj[k]`, `undefined` mapped to `none`). -/
def recLookup (m : JsRecord α) (k : String) : Option α :=
  (m.find? (fun p => p.1 == k)).map (fun p => p.2)

/-- Key presence (`k in obj`). -/
def recHas (m : JsRecord α) (k : String) : Bool :=
  m.any (fun p => p.1 == k)

/-- `{...obj, [k]: v}`: updates the key in place when present, otherwise
appends it. -/
def recSet (m : JsRecord α) (k : String) (v : α) : JsRecord α :=
  if recHas m k then m.map (fun p => if p.1 == k then (k, v) else p)
  else m ++ [(k, v)]

/-- `const { [k]: dropped, ...rest } = obj`: removes the key. -/
def recErase (m : JsRecord α) (k : String) : JsRecord α :=
  m.filter (fun p => p.1 != k)

/-- The store's state (`StoreState` data fields of `useStore.ts`). -/
structure StoreState where
  conversations : List Conversation
  selectedConversationId : Option String
  messagesByConversation : JsRecord (List Message)
  messageThreadMap : JsRecord String
  deriving DecidableEq, Repr

/-- The store's initial state. -/
def initialState : StoreState :=
  { conversations := []
    selectedConversationId := none
    messagesByConversation := []
    messageThreadMap := [] }

/-- `Partial<Conversation>` as used by `updateConversation`: each field is
optionally present. An `isActive` update carries the new optional value. -/
structure ConversationUpdates where
  id : Option String
  title : Option String
  lastMessage : Option String
  timestamp : Option Nat
  isActive : Option (Option Bool)
  deriving DecidableEq, Repr

/-- `{ ...conv, ...updates }`: fields present in `updates` override. -/
def applyUpdates (conv : Conversation) (u : ConversationUpdates) : Conversation :=
  { id := u.id.getD conv.id
    title := u.title.getD conv.title
    lastMessage := u.lastMessage.getD conv.lastMessage
    timestamp := u.timestamp.getD conv.timestamp
    isActive := u.isActive.getD conv.isActive }

/-- `addConversation`: prepends the conversation, deactivates all others,
and selects the new conversation's id. -/
def addConversation (s : StoreState) (conversation : Conversation) : StoreState :=
  { s with
    conversations :=
      conversation :: s.conversations.map (fun conv => { conv with isActive := some false })
    selectedConversationId := some conversation.id }

/-- `updateConversation`: merges `updates` into every conversation whose
id matches. -/
def updateConversation (s : StoreState) (id : String) (updates : ConversationUpdates) :
    StoreState :=
  { s with
    conversations := s.conversations.map (fun conv =>
      if conv.id == id then applyUpdates conv updates else conv) }

/-- `deleteConversation`: drops matching conversations, recomputes the
selection when the deleted id was selected, and removes that id's entry
from `messagesByConversation`. -/
def deleteConversation (s : StoreState) (id : String) : StoreState :=
  let remaining := s.conversations.filter (fun conv => conv.id != id)
  let newSelectedId :=
    if s.selectedConversationId = some id then
      match remaining with
      | [] => none
      | c :: _ => some c.id
    else s.selectedConversationId
  { conversations := remaining
    selectedConversationId := newSelectedId
    messagesByConversation := recErase s.messagesByConversation id
    messageThreadMap := s.messageThreadMap }

/-- The synchronous `set` part of `selectConversation`: records the
selection and sets `isActive` on exactly the id-matching conversations.
(The call also fires `loadMessagesForConversation`, modelled separately
since it is an asynchronous backend read.) -/
def selectConversation (s : StoreState) (id : String) : StoreState :=
  { s with
    selectedConversationId := some id
    conversations := s.conversations.map (fun conv =>
      { conv with isActive := some (conv.id == id) }) }

/-- Backend conversation record as consumed by `loadConversations`
(`id.toString()` is collapsed into a plain string; the optional `title`
and `lastMessage` fields keep JS falsiness: the empty string counts as
absent because the code uses `||`). -/
structure ApiConversation where
  id : String
  title : Option String
  lastMessage : Option String
  timestamp : Nat
  deriving DecidableEq, Repr

/-- JS `x || d` for an optional string field: `undefined` and `""` both
fall through to the default. -/
def jsOrDefault (x : Option String) (d : String) : String :=
  match x with
  | none => d
  | some t => if t = "" then d else t

/-- The per-conversation transform inside `loadConversations`. -/
def transformConversation (conv : ApiConversation) : Conversation :=
  { id := conv.id
    title := jsOrDefault conv.title "Untitled Conversation"
    lastMessage := jsOrDefault conv.lastMessage ""
    timestamp := conv.timestamp
    isActive := some false }

/-- `loadConversations`: on success (`some body`) replaces the
conversation list wholesale with the transformed backend result; on any
failure (`none`: fetch rejection or non-2xx, both routed to the `catch`)
the state is left untouched and nothing is thrown to the caller. -/
def loadConversations (s : StoreState) (result : Option (List ApiConversation)) :
    StoreState :=
  match result with
  | some conversations =>
      { s with conversations := conversations.map transformConversation }
  | none => s

/-- Backend message record as consumed by `loadMessagesForConversation`. -/
structure ApiMessage where
  id : String
  content : Option String
  role : Option Role
  timestamp : Nat
  conversationId : String
  deriving DecidableEq, Repr

/-- The per-message transform inside `loadMessagesForConversation`. -/
def transformMessage (msg : ApiMessage) : Message :=
  { id := msg.id
    content := jsOrDefault msg.content ""
    role := msg.role.getD Role.user
    timestamp := msg.timestamp
    conversationId := msg.conversationId
    threadConversationId := none }

/-- `loadMessagesForConversation`: on success stores the transformed
messages under the conversation's key; on failure keeps existing
messages. -/
def loadMessagesForConversation (s : StoreState) (conversationId : String)
    (result : Option (List ApiMessage)) : StoreState :=
  match result with
  | some messages =>
      { s with
        messagesByConversation :=
          recSet s.messagesByConversation conversationId (messages.map transformMessage) }
  | none => s

/-- Backend session record returned by `POST /api/users/:id/sessions`. -/
structure SessionData where
  session_id : String
  created_at : Nat
  deriving DecidableEq, Repr

/-- The successful branch of `createNewConversation`: builds the new
conversation from the session data, prepends it (deactivating the rest),
selects it, and returns it. The failing branch re-throws to the caller,
so it is modelled by the caller receiving `none` and no state change. -/
def createNewConversationApply (s : StoreState) (sessionData : SessionData) :
    StoreState × Conversation :=
  let newConversation : Conversation :=
    { id := sessionData.session_id
      title := "New conversation"
      lastMessage := "Start a new conversation..."
      timestamp := sessionData.created_at
      isActive := some true }
  ({ s with
     conversations :=
       newConversation :: s.conversations.map (fun conv => { conv with isActive := some false })
     selectedConversationId := some newConversation.id },
   newConversation)

/-- `addMessage`: appends to the per-conversation message array
(creating the entry when absent). -/
def addMessage (s : StoreState) (message : Message) : StoreState :=
  { s with
    messagesByConversation :=
      recSet s.messagesByConversation message.conversationId
        ((recLookup s.messagesByConversation message.conversationId).getD [] ++ [message]) }

/-- `updateMessageContent`: rewrites the content of every message with
the given id, across all conversations' arrays. -/
def updateMessageContent (s : StoreState) (messageId : String) (content : String) :
    StoreState :=
  { s with
    messagesByConversation := s.messagesByConversation.map (fun p =>
      (p.1, p.2.map (fun msg =>
        if msg.id == messageId then { msg with content := content } else msg))) }

/-- `updateMessageId`: swaps the id of every message carrying the old id,
across all conversations' arrays. -/
def updateMessageId (s : StoreState) (oldMessageId : String) (newMessageId : String) :
    StoreState :=
  { s with
    messagesByConversation := s.messagesByConversation.map (fun p =>
      (p.1, p.2.map (fun msg =>
        if msg.id == oldMessageId then { msg with id := newMessageId } else msg))) }

/-- `setMessagesForConversation`: overwrites one conversation's array. -/
def setMessagesForConversation (s : StoreState) (conversationId : String)
    (messages : List Message) : StoreState :=
  { s with
    messagesByConversation := recSet s.messagesByConversation conversationId messages }

/-- `getMessagesForConversation`: the stored array, or `[]`. -/
def getMessagesForConversation (s : StoreState) (conversationId : String) : List Message :=
  (recLookup s.messagesByConversation conversationId).getD []

/-- `updateConversationLastMessage`: rewrites the matching conversation's
preview text and bumps its timestamp to now. -/
def updateConversationLastMessage (s : StoreState) (conversationId : String)
    (lastMessage : String) (now : Nat) : StoreState :=
  { s with
    conversations := s.conversations.map (fun conv =>
      if conv.id == conversationId then
        { conv with lastMessage := lastMessage, timestamp := now }
      else conv) }

/-- `getThreadForMessage`: `messageThreadMap[messageId] || null`; the JS
`||` turns an empty-string mapping into `null`. -/
def getThreadForMessage (s : StoreState) (messageId : String) : Option String :=
  match recLookup s.messageThreadMap messageId with
  | none => none
  | some t => if t = "" then none else some t

/-- `getConversationById`: first conversation with the id, or none. -/
def getConversationById (s : StoreState) (id : String) : Option Conversation :=
  s.conversations.find? (fun conv => conv.id == id)

/-- `findEmptyConversation`: first conversation with no
`messagesByConversation` entry or a zero-length one. -/
def findEmptyConversation (s : StoreState) : Option Conversation :=
  s.conversations.find? (fun conv =>
    !(recHas s.messagesByConversation conv.id)
      || ((recLookup s.messagesByConversation conv.id).getD []).length == 0)

/-- `createOrSelectEmptyConversation`: the body unconditionally delegates
to `createNewConversation` ("Always create a new conversation when
starting fresh"); a backend failure (`none`) re-throws to the caller. -/
def createOrSelectEmptyConversation (s : StoreState) (result : Option SessionData) :
    Option (StoreState × Conversation) :=
  result.map (fun sessionData => createNewConversationApply s sessionData)

/-! ### Chat send/stream flow (ChatBox `handleSendMessage`) -/

/-- A decoded `data: <json>` SSE event. `unknown` stands for a parsed
object whose `status` matches none of the handled branches (every
`else if` falls through, leaving the state untouched). -/
inductive SSEData where
  | started (user_message_id : String)
  | chunk (content : String)
  | completed (chatbot_message_id : String) (title : Option String)
  | error (errorMessage : String)
  | unknown
  deriving DecidableEq, Repr

/-- The stream loop's accumulator: the store plus the two local mutable
variables of `handleSendMessage`. -/
structure StreamAcc where
  store : StoreState
  placeholderAssistantId : String
  fullResponse : String
  deriving DecidableEq, Repr

/-- One `data:` line's handling inside the stream loop of
`handleSendMessage`.

The `status === 'error'` branch executes `throw new Error(data.error)`,
but that throw happens inside the per-line `try` whose `catch
(parseError)` only logs; the exception therefore never leaves the loop
and the accumulator is unchanged. The `setTimeout` scheduled by the
`completed` branch (strict-mode auto-quiz) runs after the loop, touches
only component-local panel state and the quiz thread, and is outside
this model. -/
def processSSEData (conversationId : String) (now : Nat) (acc : StreamAcc) :
    SSEData → StreamAcc
  | .started user_message_id =>
      let placeholderAssistantId := user_message_id ++ "_assistant"
      let assistantMessage : Message :=
        { id := placeholderAssistantId
          content := ""
          role := Role.assistant
          timestamp := now
          conversationId := conversationId
          threadConversationId := none }
      { acc with
        store := addMessage acc.store assistantMessage
        placeholderAssistantId := placeholderAssistantId }
  | .chunk content =>
      let fullResponse := acc.fullResponse ++ content
      { acc with
        store :=
          updateConversationLastMessage
            (updateMessageContent acc.store acc.placeholderAssistantId fullResponse)
            conversationId fullResponse now
        fullResponse := fullResponse }
  | .completed chatbot_message_id title =>
      let store := updateMessageId acc.store acc.placeholderAssistantId chatbot_message_id
      let store :=
        match title with
        | some t =>
            if t != "" && t != "New conversation" then
              updateConversation store conversationId
                { id := none, title := some t, lastMessage := none
                  timestamp := none, isActive := none }
            else store
        | none => store
      { acc with store := store }
  | .error _ => acc
  | .unknown => acc

/-- The stream loop over all decoded lines. A line that does not start
with `data: ` or whose JSON fails to parse (the `catch (parseError)`
path) is `none` and is skipped. -/
def processStreamLines (conversationId : String) (now : Nat) (acc : StreamAcc)
    (lines : List (Option SSEData)) : StreamAcc :=
  lines.foldl (fun acc line =>
    match line with
    | none => acc
    | some data => processSSEData conversationId now acc data) acc

/-- The static fallback text (apostrophes built from their ASCII code). -/
def apologyContent : String :=
  "I" ++ String.singleton (Char.ofNat 39) ++ "m sorry, I"
    ++ String.singleton (Char.ofNat 39)
    ++ "m having trouble connecting to the server. Please try again later."

/-- `handleSendMessage` after a conversation id is available: adds the
user message, then either consumes the whole stream (`some lines`) or —
when the fetch itself rejects or returns non-2xx (`none`), which is the
only way the outer `catch` is reached — inserts the static apology
assistant message. All `Date.now()`/`new Date()` values during the call
are modelled by `now` (the apology id uses `now + 1` as in the code). -/
def handleSendMessage (s : StoreState) (conversationId : String) (content : String)
    (now : Nat) (streamResult : Option (List (Option SSEData))) : StoreState :=
  let userMessage : Message :=
    { id := toString now
      content := content
      role := Role.user
      timestamp := now
      conversationId := conversationId
      threadConversationId := none }
  let s1 := updateConversationLastMessage (addMessage s userMessage) conversationId content now
  match streamResult with
  | some lines => (processStreamLines conversationId now ⟨s1, "", ""⟩ lines).store
  | none =>
      let assistantMessage : Message :=
        { id := toString (now + 1)
          content := apologyContent
          role := Role.assistant
          timestamp := now
          conversationId := conversationId
          threadConversationId := none }
      updateConversationLastMessage (addMessage s1 assistantMessage)
        conversationId apologyContent now

/-! ### Quiz thread creation (`openOrCreateThreadForMessage`) -/

/-- `selectConversation` together with the message load it fires. -/
def selectConversationFull (s : StoreState) (id : String)
    (loadResult : Option (List ApiMessage)) : StoreState :=
  loadMessagesForConversation (selectConversation s id) id loadResult

/-- The thread-creation branch of `openOrCreateThreadForMessage`
(everything after the successful inner `createNewConversation` call):
retitle the new conversation, seed it with the source message, record
the message-to-thread mapping, annotate the source message, and select
the thread when asked to. Returns the final state and the `newConv`
value the function returns. -/
def createThreadFromMessage (s : StoreState) (message : Message)
    (sessionData : SessionData) (now : Nat) (selectThread : Bool)
    (loadResult : Option (List ApiMessage)) : StoreState × Conversation :=
  let created := createNewConversationApply s sessionData
  let s1 := created.1
  let newConv := created.2
  let threadTitle :=
    "Thread: " ++ message.content.take 30
      ++ (if 30 < message.content.length then "…" else "")
  let s2 := updateConversation s1 newConv.id
    { id := none, title := some threadTitle, lastMessage := none
      timestamp := none, isActive := none }
  let s3 := updateConversationLastMessage s2 newConv.id message.content now
  let seededAssistantMessage : Message :=
    { id := message.id ++ "-seed"
      content := message.content
      role := Role.assistant
      timestamp := now
      conversationId := newConv.id
      threadConversationId := none }
  let s4 := setMessagesForConversation s3 newConv.id [seededAssistantMessage]
  let msgs := (recLookup s4.messagesByConversation message.conversationId).getD []
  let updatedMsgs := msgs.map (fun m =>
    if m.id == message.id then { m with threadConversationId := some newConv.id } else m)
  let s5 :=
    { s4 with
      messageThreadMap := recSet s4.messageThreadMap message.id newConv.id
      messagesByConversation :=
        recSet s4.messagesByConversation message.conversationId updatedMsgs }
  let s6 := if selectThread then selectConversationFull s5 newConv.id loadResult else s5
  (s6, newConv)

/-- `openOrCreateThreadForMessage`. `backend` is the outcome of the
inner `createNewConversation` call (`none` = it threw, and the function
re-throws, modelled as outer `none`). The returned conversation is
`Option`al because the existing-thread branch ends in
`getConversationById(existingThreadId)!`, whose non-null assertion can
be wrong at runtime. `loadResult` feeds the message load fired by
`selectConversation` when `selectThread` is set. -/
def openOrCreateThreadForMessage (s : StoreState) (message : Message)
    (backend : Option SessionData) (now : Nat) (selectThread : Bool)
    (loadResult : Option (List ApiMessage)) :
    Option (StoreState × Option Conversation) :=
  match getThreadForMessage s message.id with
  | some existingThreadId =>
      let s1 := if selectThread then selectConversationFull s existingThreadId loadResult else s
      some (s1, getConversationById s1 existingThreadId)
  | none =>
      backend.map (fun sessionData =>
        let created := createThreadFromMessage s message sessionData now selectThread loadResult
        (created.1, some created.2))

/-! ### Knowledge-graph loader (`loadKnowledgeGraph` transform) -/

/-- The backend body of `GET /api/knowledge-graph`; `none` fields model
`undefined`/`null`, on which `||` substitutes the built-in test data
(an empty array is truthy in JS and does not trigger the fallback). -/
structure KGData where
  topics : Option (List String)
  edges : Option (List (String × String))
  deriving DecidableEq, Repr

/-- The `data.topics || [...]` fallback list. -/
def defaultTopics : List String := ["Test Node 1", "Test Node 2", "Test Node 3"]

/-- The `data.edges || [...]` fallback list. -/
def defaultEdges : List (String × String) :=
  [("Test Node 1", "Test Node 2"), ("Test Node 2", "Test Node 3")]

/-- The `nodeDegrees` map: zero for every topic, then one increment per
edge endpoint (endpoints absent from `topics` are inserted too). -/
def buildNodeDegrees (topics : List String) (edgeList : List (String × String)) :
    JsRecord Nat :=
  edgeList.foldl (fun m e =>
    let m1 := recSet m e.1 ((recLookup m e.1).getD 0 + 1)
    recSet m1 e.2 ((recLookup m1 e.2).getD 0 + 1))
  (topics.foldl (fun m topic => recSet m topic 0) [])

/-- A React-Flow node as built by the transform (the cosmetic gradient
and colour strings are omitted; the position is kept abstract, see
`transformNodes`). -/
structure KGNode where
  id : String
  label : String
  category : String
  position : Int × Int
  deriving DecidableEq, Repr

/-- A React-Flow edge as built by the transform. -/
structure KGEdge where
  id : String
  source : String
  target : String
  deriving DecidableEq, Repr

/-- `transformedNodes`: one node per topic, with `id` and `label` the
topic string itself. The layout coordinates are computed with
`Math.random` and floating-point trigonometry (layer radii, jitter,
clustering offsets); they feed only the `position` field and are
modelled by the `position` oracle on the node index. -/
def transformNodes (position : Nat → Int × Int) (topics : List String)
    (edgeList : List (String × String)) : List KGNode :=
  let nodeDegrees := buildNodeDegrees topics edgeList
  topics.enum.map (fun p =>
    let degree := (recLookup nodeDegrees p.2).getD 0
    { id := p.2
      label := p.2
      category := "Topic (" ++ toString degree ++ " connections)"
      position := position p.1 })

/-- `transformedEdges`: one edge per pair, `id` `edge-<index>`, source
and target the pair's components. -/
def transformEdges (edgeList : List (String × String)) : List KGEdge :=
  edgeList.enum.map (fun p =>
    { id := "edge-" ++ toString p.1, source := p.2.1, target := p.2.2 })

/-- The success path of `loadKnowledgeGraph`: apply the fallbacks, then
`setNodes`/`setEdges` with the two transforms. -/
def loadKnowledgeGraph (position : Nat → Int × Int) (data : KGData) :
    List KGNode × List KGEdge :=
  let topics := data.topics.getD defaultTopics
  let edgeList := data.edges.getD defaultEdges
  (transformNodes position topics edgeList, transformEdges edgeList)

/-! ### Sequences of store operations -/

/-- One invocation of a store action, with any backend outcome it
depends on carried as data (`none` = the call failed). -/
inductive StoreOp where
  | addConversation (c : Conversation)
  | updateConversation (id : String) (updates : ConversationUpdates)
  | deleteConversation (id : String)
  | selectConversation (id : String) (loadResult : Option (List ApiMessage))
  | createNewConversation (result : Option SessionData)
  | loadConversations (result : Option (List ApiConversation))
  deriving Repr

/-- The state transition of one store operation. A failed
`createNewConversation` throws after changing nothing. -/
def stepOp (s : StoreState) : StoreOp → StoreState
  | .addConversation c => addConversation s c
  | .updateConversation id u => updateConversation s id u
  | .deleteConversation id => deleteConversation s id
  | .selectConversation id r => selectConversationFull s id r
  | .createNewConversation none => s
  | .createNewConversation (some sessionData) => (createNewConversationApply s sessionData).1
  | .loadConversations r => loadConversations s r

/-- Run a sequence of store operations from the initial state. -/
def runOps (ops : List StoreOp) : StoreState :=
  ops.foldl stepOp initialState

/-- Number of conversations whose active flag is set. -/
def activeCount (l : List Conversation) : Nat :=
  l.countP (fun c => c.isActive == some true)

/-! ### Auxiliary predicates used by the statements -/

/-- No message stored anywhere in the store carries the given id. -/
def messageIdAbsent (s : StoreState) (messageId : String) : Bool :=
  s.messagesByConversation.all (fun p => p.2.all (fun m => m.id != messageId))

/-- Well-formedness of one operation relative to the state it runs in:
added and created conversations carry fresh ids, `updateConversation`
does not rewrite `id` or `isActive` (in the code it is used for titles),
and a loaded list has pairwise-distinct ids. -/
def wfOpB (s : StoreState) : StoreOp → Bool
  | .addConversation c => s.conversations.all (fun conv => conv.id != c.id)
  | .updateConversation _ u => u.id.isNone && u.isActive.isNone
  | .deleteConversation _ => true
  | .selectConversation _ _ => true
  | .createNewConversation none => true
  | .createNewConversation (some sessionData) =>
      s.conversations.all (fun conv => conv.id != sessionData.session_id)
  | .loadConversations none => true
  | .loadConversations (some l) => decide (l.map ApiConversation.id).Nodup

/-- Well-formedness of a whole operation sequence from a given state. -/
def wfFromB (s : StoreState) : List StoreOp → Bool
  | [] => true
  | op :: ops => wfOpB s op && wfFromB (stepOp s op) ops

/-- The inductive invariant behind the active-flag property: conversation
ids are pairwise distinct and at most one conversation is active. -/
def storeInv (s : StoreState) : Prop :=
  (s.conversations.map Conversation.id).Nodup ∧ activeCount s.conversations ≤ 1

/-! ### Dictionary lemmas -/

theorem recLookup_cons (q : String × α) (t : JsRecord α) (k : String) :
    recLookup (q :: t) k = if q.1 == k then some q.2 else recLookup t k := by
  unfold recLookup
  cases hq : (q.1 == k) <;> simp [List.find?_cons, hq]

theorem recHas_cons (q : String × α) (t : JsRecord α) (k : String) :
    recHas (q :: t) k = ((q.1 == k) || recHas t k) := by
  simp [recHas]

theorem recLookup_of_recHas_eq_false {m : JsRecord α} {k : String}
    (h : recHas m k = false) : recLookup m k = none := by
  induction m with
  | nil => rfl
  | cons q t ih =>
      rw [recHas_cons, Bool.or_eq_false_iff] at h
      rw [recLookup_cons, if_neg (by simp [h.1]), ih h.2]

theorem recLookup_set_self (m : JsRecord α) (k : String) (v : α) :
    recLookup (recSet m k v) k = some v := by
  unfold recSet
  by_cases h : recHas m k
  · rw [if_pos h]
    induction m with
    | nil => simp [recHas] at h
    | cons q t ih =>
        cases hq : (q.1 == k)
        · rw [recHas_cons, hq, Bool.false_or] at h
          simp only [List.map_cons, hq, Bool.false_eq_true, if_false]
          rw [recLookup_cons, if_neg (by simp [hq]), ih h]
        · simp only [List.map_cons, hq, if_true]
          rw [recLookup_cons, if_pos (by simp)]
  · rw [if_neg h]
    rw [Bool.not_eq_true] at h
    induction m with
    | nil => simp [recLookup, List.find?]
    | cons q t ih =>
        rw [recHas_cons, Bool.or_eq_false_iff] at h
        rw [List.cons_append, recLookup_cons, if_neg (by simp [h.1]), ih h.2]

theorem map_eq_self_of_id {l : List β} {f : β → β} (h : ∀ x ∈ l, f x = x) :
    l.map f = l := by
  induction l with
  | nil => rfl
  | cons a t ih =>
      rw [List.map_cons, h a (by simp), ih (fun x hx => h x (by simp [hx]))]

theorem recLookup_set_ne (m : JsRecord α) (k k' : String) (v : α) (h : k' ≠ k) :
    recLookup (recSet m k v) k' = recLookup m k' := by
  unfold recSet
  by_cases hh : recHas m k
  · rw [if_pos hh]
    induction m with
    | nil => simp [recHas] at hh
    | cons q t ih =>
        rw [List.map_cons, recLookup_cons, recLookup_cons]
        cases hq : (q.1 == k)
        · rw [recHas_cons, hq, Bool.false_or] at hh
          simp only [hq, Bool.false_eq_true, if_false]
          cases hq' : (q.1 == k')
          · simp only [Bool.false_eq_true, if_false]
            exact ih hh
          · simp [hq']
        · simp only [hq, if_true]
          have hq1 : q.1 = k := by simpa using hq
          rw [if_neg (by simpa using Ne.symm h),
            if_neg (by simp only [hq1, beq_iff_eq]; exact Ne.symm h)]
          by_cases ht : recHas t k
          · exact ih ht
          · rw [Bool.not_eq_true] at ht
            rw [map_eq_self_of_id]
            intro p hp
            rw [recHas, List.any_eq_false] at ht
            have := ht p hp
            simp_all
  · rw [if_neg hh]
    induction m with
    | nil =>
        rw [List.nil_append, recLookup_cons, if_neg (by simpa using Ne.symm h)]
    | cons q t ih =>
        rw [Bool.not_eq_true, recHas_cons, Bool.or_eq_false_iff] at hh
        rw [List.cons_append, recLookup_cons, recLookup_cons]
        cases hq' : (q.1 == k')
        · simp only [Bool.false_eq_true, if_false]
          exact ih (by simp [hh.2])
        · simp

theorem recLookup_map_snd (m : JsRecord α) (f : α → β) (k : String) :
    recLookup (m.map (fun p => (p.1, f p.2))) k = (recLookup m k).map f := by
  induction m with
  | nil => rfl
  | cons q t ih =>
      rw [List.map_cons, recLookup_cons, recLookup_cons]
      cases hq : (q.1 == k) <;> simp_all

theorem recLookup_erase_self (m : JsRecord α) (k : String) :
    recLookup (recErase m k) k = none := by
  unfold recLookup recErase
  have hfind : List.find? (fun p => p.1 == k) (List.filter (fun p => p.1 != k) m) = none := by
    rw [List.find?_eq_none]
    intro p hp
    have h1 := List.of_mem_filter hp
    simp_all
  rw [hfind]
  rfl

theorem recLookup_erase_ne (m : JsRecord α) (k k' : String) (h : k' ≠ k) :
    recLookup (recErase m k) k' = recLookup m k' := by
  induction m with
  | nil => rfl
  | cons q t ih =>
      unfold recErase
      rw [List.filter_cons]
      cases hq : (q.1 == k)
      · rw [if_pos (by simp [bne, hq])]
        rw [recLookup_cons, recLookup_cons]
        unfold recErase at ih
        cases hq' : (q.1 == k') <;> simp_all
      · rw [if_neg (by simp [bne, hq])]
        have hq1 : q.1 = k := by simpa using hq
        unfold recErase at ih
        rw [ih, recLookup_cons, if_neg (by simp only [hq1, beq_iff_eq]; exact Ne.symm h)]

theorem recErase_of_recHas_eq_false {m : JsRecord α} {k : String}
    (h : recHas m k = false) : recErase m k = m := by
  unfold recErase
  rw [List.filter_eq_self]
  intro p hp
  rw [recHas, List.any_eq_false] at h
  have := h p hp
  simp_all

/-! ### C3: selectConversation and the active flag -/

theorem countP_beq_id_le_one (l : List Conversation) (id : String)
    (h : (l.map Conversation.id).Nodup) :
    l.countP (fun c => c.id == id) ≤ 1 := by
  induction l with
  | nil => simp
  | cons a t ih =>
      rw [List.map_cons, List.nodup_cons] at h
      rw [List.countP_cons]
      cases ha : (a.id == id)
      · simpa [ha] using ih h.2
      · have haid : a.id = id := by simpa using ha
        have hz : t.countP (fun c => c.id == id) = 0 := by
          rw [List.countP_eq_zero]
          intro c hc hcid
          apply h.1
          have hce : c.id = a.id := by rw [haid]; simpa using hcid
          exact hce ▸ List.mem_map_of_mem Conversation.id hc
        simp [ha, hz]

/-- Claim C3, as stated over every conversation list, is false: with two
conversations sharing the id `"a"`, `selectConversation "a"` sets the
active flag on both of them. -/
theorem selectConversation_duplicate_ids_two_active :
    ¬ (activeCount (selectConversation
        { conversations := [⟨"a", "t", "l", 0, none⟩, ⟨"a", "t2", "l", 0, none⟩]
          selectedConversationId := none
          messagesByConversation := []
          messageThreadMap := [] } "a").conversations ≤ 1) := by
  decide

/-- C3 (amended: the conversation ids must be pairwise distinct): after
`selectConversation id`, at most one conversation has its active flag
set, and every conversation with the flag set is the one whose id was
passed. -/
theorem selectConversation_unique_active (s : StoreState) (id : String)
    (h : (s.conversations.map Conversation.id).Nodup) :
    activeCount (selectConversation s id).conversations ≤ 1 ∧
    ∀ c ∈ (selectConversation s id).conversations, c.isActive = some true → c.id = id := by
  constructor
  · unfold selectConversation activeCount
    rw [List.countP_map]
    have hcomp : ((fun c => c.isActive == some true) ∘
        fun conv => { conv with isActive := some (conv.id == id) }) =
        fun c : Conversation => c.id == id := by
      funext c
      cases hc : (c.id == id) <;> simp [Function.comp, hc]
    rw [hcomp]
    exact countP_beq_id_le_one s.conversations id h
  · intro c hc hact
    simp only [selectConversation, List.mem_map] at hc
    obtain ⟨c0, _, rfl⟩ := hc
    simpa using hact

/-- Witness for the amended C3 at a concrete two-conversation store. -/
theorem selectConversation_unique_active_witness :
    activeCount (selectConversation
      { conversations := [⟨"a", "t", "l", 0, none⟩, ⟨"b", "t2", "l", 0, none⟩]
        selectedConversationId := none
        messagesByConversation := []
        messageThreadMap := [] } "a").conversations ≤ 1 ∧
    ∀ c ∈ (selectConversation
      { conversations := [⟨"a", "t", "l", 0, none⟩, ⟨"b", "t2", "l", 0, none⟩]
        selectedConversationId := none
        messagesByConversation := []
        messageThreadMap := [] } "a").conversations, c.isActive = some true → c.id = "a" :=
  selectConversation_unique_active _ "a" (by decide)

/-! ### C4 and C10: deleteConversation -/

/-- Claim C4: `deleteConversation id` removes exactly the conversations
with that id, discards that id's message list and no other, and the
selection becomes the first remaining conversation's id (or none) when
the deleted conversation was selected, and is unchanged otherwise. -/
theorem deleteConversation_spec (s : StoreState) (id : String) :
    (∀ c ∈ (deleteConversation s id).conversations, c.id ≠ id) ∧
    (∀ c ∈ s.conversations, c.id ≠ id → c ∈ (deleteConversation s id).conversations) ∧
    recLookup (deleteConversation s id).messagesByConversation id = none ∧
    (∀ k, k ≠ id → recLookup (deleteConversation s id).messagesByConversation k =
      recLookup s.messagesByConversation k) ∧
    (s.selectedConversationId = some id →
      (deleteConversation s id).selectedConversationId =
        ((deleteConversation s id).conversations.head?).map Conversation.id) ∧
    (s.selectedConversationId ≠ some id →
      (deleteConversation s id).selectedConversationId = s.selectedConversationId) := by
  refine ⟨?_, ?_, ?_, ?_, ?_, ?_⟩
  · intro c hc
    simp only [deleteConversation] at hc
    have h2 := List.of_mem_filter hc
    simpa using h2
  · intro c hc hne
    simp only [deleteConversation]
    exact List.mem_filter_of_mem hc (by simpa using hne)
  · simp only [deleteConversation]
    exact recLookup_erase_self _ _
  · intro k hk
    simp only [deleteConversation]
    exact recLookup_erase_ne _ _ _ hk
  · intro hsel
    simp only [deleteConversation, hsel, if_pos]
    cases s.conversations.filter (fun conv => conv.id != id) <;> rfl
  · intro hsel
    simp only [deleteConversation]
    rw [if_neg hsel]

/-- Witness for C4: deleting the selected conversation `"a"` moves the
selection to the first remaining conversation `"b"` and drops the
message list of `"a"` while keeping the one of `"b"`. -/
theorem deleteConversation_spec_witness :
    (deleteConversation
        { conversations := [⟨"a", "t", "l", 0, some true⟩, ⟨"b", "t2", "l", 0, none⟩]
          selectedConversationId := some "a"
          messagesByConversation := [("a", []), ("b", [])]
          messageThreadMap := [] } "a").selectedConversationId = some "b" ∧
    recLookup (deleteConversation
        { conversations := [⟨"a", "t", "l", 0, some true⟩, ⟨"b", "t2", "l", 0, none⟩]
          selectedConversationId := some "a"
          messagesByConversation := [("a", []), ("b", [])]
          messageThreadMap := [] } "a").messagesByConversation "a" = none ∧
    recLookup (deleteConversation
        { conversations := [⟨"a", "t", "l", 0, some true⟩, ⟨"b", "t2", "l", 0, none⟩]
          selectedConversationId := some "a"
          messagesByConversation := [("a", []), ("b", [])]
          messageThreadMap := [] } "a").messagesByConversation "b" = some [] := by
  have h := deleteConversation_spec
    { conversations := [⟨"a", "t", "l", 0, some true⟩, ⟨"b", "t2", "l", 0, none⟩]
      selectedConversationId := some "a"
      messagesByConversation := [("a", []), ("b", [])]
      messageThreadMap := [] } "a"
  refine ⟨(h.2.2.2.2.1 rfl).trans (by decide), h.2.2.1, (h.2.2.2.1 "b" (by decide)).trans (by decide)⟩

/-- Claim C10, as stated, is false: an id absent from the conversation
list can still have a `messagesByConversation` entry (quiz threads store
their messages without joining the conversation list), and deleting that
id discards the entry. -/
theorem deleteConversation_not_frame_counterexample :
    (∀ c ∈ ({ conversations := []
              selectedConversationId := none
              messagesByConversation := [("x", [])]
              messageThreadMap := [] } : StoreState).conversations, c.id ≠ "x") ∧
    deleteConversation
      { conversations := []
        selectedConversationId := none
        messagesByConversation := [("x", [])]
        messageThreadMap := [] } "x" ≠
      { conversations := []
        selectedConversationId := none
        messagesByConversation := [("x", [])]
        messageThreadMap := [] } := by
  constructor
  · intro c hc
    cases hc
  · decide

/-- C10 (amended: the id must additionally not be the selected id and
have no message-list entry): `deleteConversation` then leaves the whole
store state unchanged. -/
theorem deleteConversation_frame (s : StoreState) (id : String)
    (h1 : ∀ c ∈ s.conversations, c.id ≠ id)
    (h2 : s.selectedConversationId ≠ some id)
    (h3 : recHas s.messagesByConversation id = false) :
    deleteConversation s id = s := by
  have hfil : List.filter (fun conv => conv.id != id) s.conversations = s.conversations :=
    List.filter_eq_self.mpr (fun c hc => by simpa using h1 c hc)
  simp only [deleteConversation, hfil, if_neg h2, recErase_of_recHas_eq_false h3]

/-- Witness for the amended C10 at a concrete store and absent id. -/
theorem deleteConversation_frame_witness :
    deleteConversation
      { conversations := [⟨"a", "t", "l", 0, some true⟩]
        selectedConversationId := some "a"
        messagesByConversation := [("a", [])]
        messageThreadMap := [] } "z" =
      { conversations := [⟨"a", "t", "l", 0, some true⟩]
        selectedConversationId := some "a"
        messagesByConversation := [("a", [])]
        messageThreadMap := [] } :=
  deleteConversation_frame _ "z" (by decide) (by decide) (by decide)

/-! ### C7: loadConversations -/

/-- Claim C7: `loadConversations` either replaces the conversation list
wholesale with the normalized backend result (touching nothing else), or
on backend failure leaves the whole state exactly as it was; the failure
branch returns normally, so no exception reaches the caller. -/
theorem loadConversations_wholesale_or_unchanged (s : StoreState)
    (l : List ApiConversation) :
    ((loadConversations s (some l)).conversations = l.map transformConversation ∧
      (loadConversations s (some l)).selectedConversationId = s.selectedConversationId ∧
      (loadConversations s (some l)).messagesByConversation = s.messagesByConversation ∧
      (loadConversations s (some l)).messageThreadMap = s.messageThreadMap) ∧
    loadConversations s none = s :=
  ⟨⟨rfl, rfl, rfl, rfl⟩, rfl⟩

/-! ### C8: findEmptyConversation / createOrSelectEmptyConversation -/

/-- Claim C8, as stated, is false: with one conversation `"a"` that has
no message entry, `findEmptyConversation` does find it, yet
`createOrSelectEmptyConversation` does not reuse it — it allocates the
new backend session `"b"` and grows the list to two conversations. -/
theorem createOrSelectEmpty_ignores_empty_counterexample :
    findEmptyConversation
      { conversations := [⟨"a", "t", "l", 0, none⟩]
        selectedConversationId := none
        messagesByConversation := []
        messageThreadMap := [] } = some ⟨"a", "t", "l", 0, none⟩ ∧
    (createOrSelectEmptyConversation
      { conversations := [⟨"a", "t", "l", 0, none⟩]
        selectedConversationId := none
        messagesByConversation := []
        messageThreadMap := [] } (some ⟨"b", 5⟩)).map (fun p => p.2.id) = some "b" ∧
    (createOrSelectEmptyConversation
      { conversations := [⟨"a", "t", "l", 0, none⟩]
        selectedConversationId := none
        messagesByConversation := []
        messageThreadMap := [] } (some ⟨"b", 5⟩)).map (fun p => p.2.id) ≠ some "a" ∧
    (createOrSelectEmptyConversation
      { conversations := [⟨"a", "t", "l", 0, none⟩]
        selectedConversationId := none
        messagesByConversation := []
        messageThreadMap := [] } (some ⟨"b", 5⟩)).map
          (fun p => p.1.conversations.length) = some 2 := by
  refine ⟨rfl, rfl, ?_, rfl⟩
  decide

/-- C8 (amended): `findEmptyConversation` does scan for a conversation
with no loaded or an empty message array, but
`createOrSelectEmptyConversation` never consults it — it always
delegates to `createNewConversation`, allocating a new backend session
even when an empty conversation exists. -/
theorem createOrSelectEmpty_always_creates (s : StoreState) (r : Option SessionData) :
    createOrSelectEmptyConversation s r =
      r.map (fun sessionData => createNewConversationApply s sessionData) ∧
    ∀ c, findEmptyConversation s = some c →
      c ∈ s.conversations ∧ getMessagesForConversation s c.id = [] := by
  refine ⟨rfl, ?_⟩
  intro c hc
  unfold findEmptyConversation at hc
  refine ⟨List.mem_of_find?_eq_some hc, ?_⟩
  have hpred := List.find?_some hc
  rw [Bool.or_eq_true] at hpred
  unfold getMessagesForConversation
  rcases hpred with hpred | hpred
  · rw [recLookup_of_recHas_eq_false (by simpa using hpred)]
    rfl
  · have hlen : ((recLookup s.messagesByConversation c.id).getD []).length = 0 := by
      simpa using hpred
    exact List.length_eq_zero.mp hlen

/-- Witness for the amended C8 at a store holding one empty conversation. -/
theorem createOrSelectEmpty_always_creates_witness :
    createOrSelectEmptyConversation
      { conversations := [⟨"a", "t", "l", 0, none⟩]
        selectedConversationId := none
        messagesByConversation := []
        messageThreadMap := [] } (some ⟨"b", 5⟩) =
      some (createNewConversationApply
        { conversations := [⟨"a", "t", "l", 0, none⟩]
          selectedConversationId := none
          messagesByConversation := []
          messageThreadMap := [] } ⟨"b", 5⟩) ∧
    (⟨"a", "t", "l", 0, none⟩ : Conversation) ∈
      ({ conversations := [⟨"a", "t", "l", 0, none⟩]
         selectedConversationId := none
         messagesByConversation := []
         messageThreadMap := [] } : StoreState).conversations ∧
    getMessagesForConversation
      { conversations := [⟨"a", "t", "l", 0, none⟩]
        selectedConversationId := none
        messagesByConversation := []
        messageThreadMap := [] } "a" = [] := by
  have h := createOrSelectEmpty_always_creates
    { conversations := [⟨"a", "t", "l", 0, none⟩]
      selectedConversationId := none
      messagesByConversation := []
      messageThreadMap := [] } (some ⟨"b", 5⟩)
  have h2 := h.2 ⟨"a", "t", "l", 0, none⟩ rfl
  exact ⟨h.1, h2.1, h2.2⟩

/-! ### C9: knowledge-graph loader -/

/-- Claim C9: for the backend response with topics `["a", "b"]` and the
single edge `("a", "b")`, the loader produces exactly 2 nodes (ids the
topic strings) and 1 edge whose endpoints are ids of produced nodes,
whatever positions the layout assigns. -/
theorem knowledgeGraph_two_nodes_one_edge (position : Nat → Int × Int) :
    (loadKnowledgeGraph position ⟨some ["a", "b"], some [("a", "b")]⟩).1.length = 2 ∧
    (loadKnowledgeGraph position ⟨some ["a", "b"], some [("a", "b")]⟩).2.length = 1 ∧
    (loadKnowledgeGraph position ⟨some ["a", "b"], some [("a", "b")]⟩).1.map KGNode.id =
      ["a", "b"] ∧
    ∀ e ∈ (loadKnowledgeGraph position ⟨some ["a", "b"], some [("a", "b")]⟩).2,
      e.source ∈ (loadKnowledgeGraph position
          ⟨some ["a", "b"], some [("a", "b")]⟩).1.map KGNode.id ∧
      e.target ∈ (loadKnowledgeGraph position
          ⟨some ["a", "b"], some [("a", "b")]⟩).1.map KGNode.id := by
  refine ⟨rfl, rfl, rfl, ?_⟩
  intro e he
  simp only [loadKnowledgeGraph, transformEdges, Option.getD, List.enum,
    List.enumFrom, List.map_cons, List.map_nil, List.mem_cons,
    List.not_mem_nil, or_false] at he
  subst he
  constructor <;> simp [loadKnowledgeGraph, transformNodes, List.enum, List.enumFrom]

/-- Witness for C9 at a concrete position oracle. -/
theorem knowledgeGraph_two_nodes_one_edge_witness :
    (loadKnowledgeGraph (fun _ => (0, 0)) ⟨some ["a", "b"], some [("a", "b")]⟩).1.length = 2 ∧
    (loadKnowledgeGraph (fun _ => (0, 0)) ⟨some ["a", "b"], some [("a", "b")]⟩).2.length = 1 ∧
    (loadKnowledgeGraph (fun _ => (0, 0)) ⟨some ["a", "b"], some [("a", "b")]⟩).1.map
      KGNode.id = ["a", "b"] ∧
    ∀ e ∈ (loadKnowledgeGraph (fun _ => (0, 0)) ⟨some ["a", "b"], some [("a", "b")]⟩).2,
      e.source ∈ (loadKnowledgeGraph (fun _ => (0, 0))
          ⟨some ["a", "b"], some [("a", "b")]⟩).1.map KGNode.id ∧
      e.target ∈ (loadKnowledgeGraph (fun _ => (0, 0))
          ⟨some ["a", "b"], some [("a", "b")]⟩).1.map KGNode.id :=
  knowledgeGraph_two_nodes_one_edge (fun _ => (0, 0))

/-! ### C1 and C2: the SSE stream loop -/

theorem getMessages_addMessage (s : StoreState) (m : Message) (cid : String)
    (h : m.conversationId = cid) :
    getMessagesForConversation (addMessage s m) cid =
      getMessagesForConversation s cid ++ [m] := by
  subst h
  unfold getMessagesForConversation addMessage
  rw [recLookup_set_self]
  rfl

theorem getMessages_updateMessageContent (s : StoreState) (pid c cid : String) :
    getMessagesForConversation (updateMessageContent s pid c) cid =
      (getMessagesForConversation s cid).map (fun msg =>
        if msg.id == pid then { msg with content := c } else msg) := by
  have hmb : (updateMessageContent s pid c).messagesByConversation =
      s.messagesByConversation.map (fun p => (p.1, p.2.map (fun msg =>
        if msg.id == pid then { msg with content := c } else msg))) := rfl
  have h2 := recLookup_map_snd s.messagesByConversation (List.map (fun msg =>
    if msg.id == pid then { msg with content := c } else msg)) cid
  unfold getMessagesForConversation
  rw [hmb, h2]
  cases recLookup s.messagesByConversation cid <;> rfl

theorem getMessages_updateMessageId (s : StoreState) (pid nid cid : String) :
    getMessagesForConversation (updateMessageId s pid nid) cid =
      (getMessagesForConversation s cid).map (fun msg =>
        if msg.id == pid then { msg with id := nid } else msg) := by
  have hmb : (updateMessageId s pid nid).messagesByConversation =
      s.messagesByConversation.map (fun p => (p.1, p.2.map (fun msg =>
        if msg.id == pid then { msg with id := nid } else msg))) := rfl
  have h2 := recLookup_map_snd s.messagesByConversation (List.map (fun msg =>
    if msg.id == pid then { msg with id := nid } else msg)) cid
  unfold getMessagesForConversation
  rw [hmb, h2]
  cases recLookup s.messagesByConversation cid <;> rfl

theorem getMessages_updateConversationLastMessage (s : StoreState)
    (cid lm : String) (now : Nat) (k : String) :
    getMessagesForConversation (updateConversationLastMessage s cid lm now) k =
      getMessagesForConversation s k := rfl

theorem map_msgs_id_of_absent (l : List Message) (pid : String) (g : Message → Message)
    (h : ∀ m ∈ l, m.id ≠ pid) :
    l.map (fun msg => if msg.id == pid then g msg else msg) = l :=
  map_eq_self_of_id (fun m hm => if_neg (by simpa using h m hm))

theorem fresh_means_absent {s : StoreState} {mid : String}
    (h : messageIdAbsent s mid = true) (cid : String) :
    ∀ m ∈ getMessagesForConversation s cid, m.id ≠ mid := by
  intro m hm
  unfold getMessagesForConversation at hm
  cases hf : s.messagesByConversation.find? (fun p => p.1 == cid) with
  | none =>
      unfold recLookup at hm
      rw [hf] at hm
      cases hm
  | some p =>
      unfold recLookup at hm
      rw [hf] at hm
      have hpm := List.mem_of_find?_eq_some hf
      unfold messageIdAbsent at h
      rw [List.all_eq_true] at h
      have h2 := h p hpm
      rw [List.all_eq_true] at h2
      have h3 := h2 m (by simpa using hm)
      simpa using h3

/-- Claim C1: running `handleSendMessage` over the stream
`started(uid) → chunk("Hi") → chunk(" there") → completed(id=X)` appends
to the conversation exactly the sent user message and one assistant
message whose final content is `"Hi there"` and whose id is `X` (the
placeholder id `uid_assistant` created on `started` has been swapped for
`X`). The hypotheses say the placeholder id collides with no stored
message id and not with the user message's id. -/
theorem sse_stream_single_assistant_message (s : StoreState)
    (conversationId uid X content : String) (now : Nat)
    (hFresh : messageIdAbsent s (uid ++ "_assistant") = true)
    (hUser : toString now ≠ uid ++ "_assistant") :
    getMessagesForConversation
      (handleSendMessage s conversationId content now
        (some [some (SSEData.started uid), some (SSEData.chunk "Hi"),
               some (SSEData.chunk " there"), some (SSEData.completed X none)]))
      conversationId =
    getMessagesForConversation s conversationId ++
      [{ id := toString now, content := content, role := Role.user, timestamp := now
         conversationId := conversationId, threadConversationId := none },
       { id := X, content := "Hi there", role := Role.assistant, timestamp := now
         conversationId := conversationId, threadConversationId := none }] := by
  simp only [handleSendMessage, processStreamLines, List.foldl, processSSEData]
  simp only [getMessages_updateMessageId, getMessages_updateConversationLastMessage,
    getMessages_updateMessageContent]
  rw [getMessages_addMessage _ _ conversationId rfl]
  simp only [getMessages_updateConversationLastMessage]
  rw [getMessages_addMessage _ _ conversationId rfl]
  have hL : ∀ m ∈ getMessagesForConversation s conversationId ++
      [({ id := toString now, content := content, role := Role.user, timestamp := now
          conversationId := conversationId, threadConversationId := none } : Message)],
      m.id ≠ uid ++ "_assistant" := by
    intro m hm
    rcases List.mem_append.mp hm with hm | hm
    · exact fresh_means_absent hFresh conversationId m hm
    · rw [List.mem_singleton] at hm
      subst hm
      exact hUser
  rw [List.map_append, List.map_append, List.map_append,
    map_msgs_id_of_absent _ _ _ hL]
  have hmap1 : List.map (fun msg =>
      if msg.id == uid ++ "_assistant" then { msg with content := "" ++ "Hi" } else msg)
      [({ id := uid ++ "_assistant", content := "", role := Role.assistant, timestamp := now
          conversationId := conversationId, threadConversationId := none } : Message)] =
      [{ id := uid ++ "_assistant", content := "" ++ "Hi", role := Role.assistant
         timestamp := now, conversationId := conversationId, threadConversationId := none }] := by
    simp
  rw [hmap1, map_msgs_id_of_absent _ _ _ hL]
  have hmap2 : List.map (fun msg =>
      if msg.id == uid ++ "_assistant" then { msg with content := "" ++ "Hi" ++ " there" } else msg)
      [({ id := uid ++ "_assistant", content := "" ++ "Hi", role := Role.assistant, timestamp := now
          conversationId := conversationId, threadConversationId := none } : Message)] =
      [{ id := uid ++ "_assistant", content := "" ++ "Hi" ++ " there", role := Role.assistant
         timestamp := now, conversationId := conversationId, threadConversationId := none }] := by
    simp
  rw [hmap2, map_msgs_id_of_absent _ _ _ hL]
  have hmap3 : List.map (fun msg =>
      if msg.id == uid ++ "_assistant" then { msg with id := X } else msg)
      [({ id := uid ++ "_assistant", content := "" ++ "Hi" ++ " there", role := Role.assistant
          timestamp := now, conversationId := conversationId, threadConversationId := none } : Message)] =
      [{ id := X, content := "" ++ "Hi" ++ " there", role := Role.assistant
         timestamp := now, conversationId := conversationId, threadConversationId := none }] := by
    simp
  rw [hmap3]
  have hstr : "" ++ "Hi" ++ " there" = "Hi there" := rfl
  rw [hstr, List.append_assoc]
  rfl

/-- Witness for C1 at a concrete store, stream ids and clock. -/
theorem sse_stream_single_assistant_message_witness :
    getMessagesForConversation
      (handleSendMessage
        { conversations := [⟨"c1", "t", "", 0, none⟩]
          selectedConversationId := some "c1"
          messagesByConversation := []
          messageThreadMap := [] } "c1" "hello" 100
        (some [some (SSEData.started "u"), some (SSEData.chunk "Hi"),
               some (SSEData.chunk " there"), some (SSEData.completed "X" none)])) "c1" =
    getMessagesForConversation
      { conversations := [⟨"c1", "t", "", 0, none⟩]
        selectedConversationId := some "c1"
        messagesByConversation := []
        messageThreadMap := [] } "c1" ++
      [{ id := toString 100, content := "hello", role := Role.user, timestamp := 100
         conversationId := "c1", threadConversationId := none },
       { id := "X", content := "Hi there", role := Role.assistant, timestamp := 100
         conversationId := "c1", threadConversationId := none }] :=
  sse_stream_single_assistant_message _ "c1" "u" "X" "hello" 100 (by decide) (by decide)

/-- Claim C2 is contradicted by the code: on the stream
`started(u) → error(boom) → chunk("Hi")`, the `throw` of the error
branch is captured by the per-line `catch (parseError)`, so the line
after the error is still processed (the placeholder's content becomes
`"Hi"`) and no apology message is inserted — the conversation ends with
exactly the user message and the placeholder, and no stored message
carries the apology text. -/
theorem sse_error_event_swallowed :
    getMessagesForConversation
      (handleSendMessage
        { conversations := [⟨"c1", "t", "", 0, none⟩]
          selectedConversationId := some "c1"
          messagesByConversation := []
          messageThreadMap := [] } "c1" "hello" 100
        (some [some (SSEData.started "u"), some (SSEData.error "boom"),
               some (SSEData.chunk "Hi")])) "c1" =
      [⟨"100", "hello", Role.user, 100, "c1", none⟩,
       ⟨"u_assistant", "Hi", Role.assistant, 100, "c1", none⟩] ∧
    ∀ m ∈ getMessagesForConversation
      (handleSendMessage
        { conversations := [⟨"c1", "t", "", 0, none⟩]
          selectedConversationId := some "c1"
          messagesByConversation := []
          messageThreadMap := [] } "c1" "hello" 100
        (some [some (SSEData.started "u"), some (SSEData.error "boom"),
               some (SSEData.chunk "Hi")])) "c1", m.content ≠ apologyContent := by
  constructor
  · rfl
  · decide

/-! ### C6: openOrCreateThreadForMessage idempotence -/

/-- Claim C6: two sequential invocations for the same message id return
conversations with the same id (the backend session id allocated by the
first call); the second call hits the recorded mapping, leaves the state
untouched, and never consults the backend (its backend argument is
arbitrary). -/
theorem openOrCreateThread_idempotent (s : StoreState) (message : Message)
    (sd : SessionData) (now1 now2 : Nat) (backend2 : Option SessionData)
    (r1 r2 : Option (List ApiMessage))
    (hNo : getThreadForMessage s message.id = none)
    (hSid : sd.session_id ≠ "") :
    ∃ s1 c1 c2,
      openOrCreateThreadForMessage s message (some sd) now1 false r1 = some (s1, some c1) ∧
      openOrCreateThreadForMessage s1 message backend2 now2 false r2 = some (s1, some c2) ∧
      c1.id = sd.session_id ∧ c2.id = sd.session_id := by
  obtain ⟨x, xs, hx, hxid⟩ :
      ∃ x xs, (createThreadFromMessage s message sd now1 false r1).1.conversations = x :: xs ∧
        x.id = sd.session_id := by
    refine ⟨_, _, rfl, ?_⟩
    simp [createNewConversationApply, applyUpdates]
  have hc2 : getConversationById (createThreadFromMessage s message sd now1 false r1).1
      sd.session_id = some x := by
    unfold getConversationById
    rw [hx, List.find?_cons_of_pos _ (by simp [hxid])]
  refine ⟨(createThreadFromMessage s message sd now1 false r1).1,
    (createThreadFromMessage s message sd now1 false r1).2, x, ?_, ?_, rfl, hxid⟩
  · simp only [openOrCreateThreadForMessage, hNo]
    rfl
  · have hthread : getThreadForMessage (createThreadFromMessage s message sd now1 false r1).1
        message.id = some sd.session_id := by
      unfold getThreadForMessage
      rw [show (createThreadFromMessage s message sd now1 false r1).1.messageThreadMap =
          recSet s.messageThreadMap message.id sd.session_id from rfl,
        recLookup_set_self]
      simp [hSid]
    simp only [openOrCreateThreadForMessage, hthread]
    simp [hc2]

/-- Witness for C6 at a concrete store, message and session ids. -/
theorem openOrCreateThread_idempotent_witness :
    ∃ s1 c1 c2,
      openOrCreateThreadForMessage
        { conversations := [⟨"c1", "t", "", 0, none⟩]
          selectedConversationId := some "c1"
          messagesByConversation := []
          messageThreadMap := [] }
        ⟨"m1", "some assistant content", Role.assistant, 0, "c1", none⟩
        (some ⟨"T", 7⟩) 50 false none = some (s1, some c1) ∧
      openOrCreateThreadForMessage s1
        ⟨"m1", "some assistant content", Role.assistant, 0, "c1", none⟩
        (some ⟨"U", 9⟩) 60 false none = some (s1, some c2) ∧
      c1.id = "T" ∧ c2.id = "T" :=
  openOrCreateThread_idempotent _ _ ⟨"T", 7⟩ 50 60 (some ⟨"U", 9⟩) none none
    (by decide) (by decide)

/-! ### C5: the active-flag invariant over operation sequences -/

theorem activeCount_deactivated (l : List Conversation) :
    activeCount (l.map (fun conv => { conv with isActive := some false })) = 0 := by
  unfold activeCount
  rw [List.countP_map]
  apply List.countP_eq_zero.mpr
  intro a _
  simp [Function.comp]

theorem ids_of_map_preserving (l : List Conversation) (f : Conversation → Conversation)
    (h : ∀ c ∈ l, (f c).id = c.id) :
    (l.map f).map Conversation.id = l.map Conversation.id := by
  rw [List.map_map]
  exact List.map_congr_left (fun a ha => h a ha)

/-- Claim C5, as stated, is false: reachable by `addConversation` of an
active conversation followed by a successful `loadConversations`, the
store has a non-null selection but zero active conversations (the load
resets every active flag without clearing the selection). -/
theorem runOps_selection_without_active_counterexample :
    (runOps [StoreOp.addConversation ⟨"a", "t", "l", 0, some true⟩,
             StoreOp.loadConversations (some [⟨"b", none, none, 0⟩])]).selectedConversationId =
      some "a" ∧
    activeCount (runOps [StoreOp.addConversation ⟨"a", "t", "l", 0, some true⟩,
             StoreOp.loadConversations (some [⟨"b", none, none, 0⟩])]).conversations = 0 := by
  exact ⟨rfl, rfl⟩

theorem stepOp_preserves_inv (s : StoreState) (op : StoreOp)
    (hinv : storeInv s) (hwf : wfOpB s op = true) : storeInv (stepOp s op) := by
  cases op with
  | addConversation c =>
      have hconvs : (stepOp s (StoreOp.addConversation c)).conversations =
          c :: s.conversations.map (fun conv => { conv with isActive := some false }) := rfl
      constructor
      · rw [hconvs, List.map_cons,
          ids_of_map_preserving s.conversations
            (fun conv => { conv with isActive := some false }) (fun c _ => rfl),
          List.nodup_cons]
        refine ⟨?_, hinv.1⟩
        intro hmem
        rw [List.mem_map] at hmem
        obtain ⟨conv, hconv, hid⟩ := hmem
        rw [wfOpB, List.all_eq_true] at hwf
        have hne := hwf conv hconv
        rw [hid] at hne
        simp at hne
      · rw [hconvs]
        unfold activeCount
        rw [List.countP_cons]
        have h0 := activeCount_deactivated s.conversations
        unfold activeCount at h0
        rw [h0]
        split <;> simp
  | updateConversation id u =>
      rw [wfOpB, Bool.and_eq_true, Option.isNone_iff_eq_none, Option.isNone_iff_eq_none] at hwf
      obtain ⟨hu1, hu2⟩ := hwf
      have hconvs : (stepOp s (StoreOp.updateConversation id u)).conversations =
          s.conversations.map (fun conv =>
            if conv.id == id then applyUpdates conv u else conv) := rfl
      constructor
      · rw [hconvs, ids_of_map_preserving s.conversations
          (fun conv => if conv.id == id then applyUpdates conv u else conv)
          (fun c _ => by cases hc : (c.id == id) <;> simp [hc, applyUpdates, hu1])]
        exact hinv.1
      · rw [hconvs]
        unfold activeCount
        rw [List.countP_map]
        have hg : ((fun c : Conversation => c.isActive == some true) ∘ fun conv =>
            if conv.id == id then applyUpdates conv u else conv) =
            fun c : Conversation => c.isActive == some true := by
          funext c
          cases hc : (c.id == id) <;> simp [Function.comp, hc, applyUpdates, hu2]
        rw [hg]
        exact hinv.2
  | deleteConversation id =>
      have hconvs : (stepOp s (StoreOp.deleteConversation id)).conversations =
          s.conversations.filter (fun conv => conv.id != id) := rfl
      constructor
      · rw [hconvs]
        exact List.Nodup.sublist
          (List.Sublist.map Conversation.id (List.filter_sublist s.conversations)) hinv.1
      · rw [hconvs]
        exact le_trans (List.Sublist.countP_le _ (List.filter_sublist s.conversations)) hinv.2
  | selectConversation id r =>
      have hconvs : (stepOp s (StoreOp.selectConversation id r)).conversations =
          s.conversations.map (fun conv => { conv with isActive := some (conv.id == id) }) := by
        cases r <;> rfl
      constructor
      · rw [hconvs, ids_of_map_preserving s.conversations
          (fun conv => { conv with isActive := some (conv.id == id) }) (fun c _ => rfl)]
        exact hinv.1
      · rw [hconvs]
        unfold activeCount
        rw [List.countP_map]
        have hcomp : ((fun c : Conversation => c.isActive == some true) ∘ fun conv =>
            { conv with isActive := some (conv.id == id) }) =
            fun c : Conversation => c.id == id := by
          funext c
          cases hc : (c.id == id) <;> simp [Function.comp, hc]
        rw [hcomp]
        exact countP_beq_id_le_one s.conversations id hinv.1
  | createNewConversation result =>
      cases result with
      | none => exact hinv
      | some sessionData =>
          have hconvs : (stepOp s (StoreOp.createNewConversation (some sessionData))).conversations =
              ({ id := sessionData.session_id, title := "New conversation", lastMessage := "Start a new conversation...", timestamp := sessionData.created_at, isActive := some true } : Conversation) ::
                s.conversations.map (fun conv => { conv with isActive := some false }) := rfl
          constructor
          · rw [hconvs, List.map_cons,
              ids_of_map_preserving s.conversations
                (fun conv => { conv with isActive := some false }) (fun c _ => rfl),
              List.nodup_cons]
            refine ⟨?_, hinv.1⟩
            intro hmem
            rw [List.mem_map] at hmem
            obtain ⟨conv, hconv, hid⟩ := hmem
            rw [wfOpB, List.all_eq_true] at hwf
            have hne := hwf conv hconv
            rw [hid] at hne
            simp at hne
          · rw [hconvs]
            unfold activeCount
            rw [List.countP_cons]
            have h0 := activeCount_deactivated s.conversations
            unfold activeCount at h0
            rw [h0]
            simp
  | loadConversations result =>
      cases result with
      | none => exact hinv
      | some l =>
          have hconvs : (stepOp s (StoreOp.loadConversations (some l))).conversations =
              l.map transformConversation := rfl
          constructor
          · rw [hconvs, List.map_map]
            have hcomp : (Conversation.id ∘ transformConversation) = ApiConversation.id := rfl
            rw [hcomp]
            rw [wfOpB] at hwf
            exact of_decide_eq_true hwf
          · rw [hconvs]
            unfold activeCount
            rw [List.countP_map]
            have h0 : l.countP ((fun c : Conversation => c.isActive == some true) ∘
                transformConversation) = 0 := by
              apply List.countP_eq_zero.mpr
              intro a _
              simp [Function.comp, transformConversation]
            rw [h0]
            simp

theorem wf_foldl_inv (ops : List StoreOp) :
    ∀ s : StoreState, storeInv s → wfFromB s ops = true →
      storeInv (ops.foldl stepOp s) := by
  induction ops with
  | nil => exact fun s h _ => h
  | cons op rest ih =>
      intro s hinv hwf
      rw [wfFromB, Bool.and_eq_true] at hwf
      exact ih (stepOp s op) (stepOp_preserves_inv s op hinv hwf.1) hwf.2

/-- C5 (amended: the claim's "exactly one" weakens to "at most one", and
the operation arguments must be well formed — fresh ids for added and
created conversations, distinct ids in loaded lists, and
`updateConversation` payloads not touching `id`/`isActive`): in every
reachable state with a non-null selection, at most one conversation has
its active flag set. "Exactly one" also fails after a well-formed
`loadConversations` or after deleting the active conversation, both of
which leave a selection with zero active flags. -/
theorem runOps_at_most_one_active (ops : List StoreOp)
    (hwf : wfFromB initialState ops = true) :
    (runOps ops).selectedConversationId ≠ none →
      activeCount (runOps ops).conversations ≤ 1 := by
  intro _
  exact (wf_foldl_inv ops initialState
    ⟨by simp [initialState], by simp [activeCount, initialState]⟩ hwf).2

/-- Witness for the amended C5: create a session and select it. -/
theorem runOps_at_most_one_active_witness :
    activeCount (runOps [StoreOp.createNewConversation (some ⟨"a", 1⟩),
      StoreOp.selectConversation "a" none]).conversations ≤ 1 :=
  runOps_at_most_one_active
    [StoreOp.createNewConversation (some ⟨"a", 1⟩), StoreOp.selectConversation "a" none]
    (by decide) (by decide)

end Cognify
